import Mathlib

/-!
# Verification of the desktop-pet animation scheduler and resource cache

This development shallowly embeds the animation scheduling engine and the
resource cache of the desktop-pet program (`r.py`): the animation catalog,
the mutable run state, `_start_animation` / `_stop_current_animation` /
`_update_current_animation` / `_end_current_animation`, the click-burst
anger detector, sleep entry, and the `ResourceManager` frame/image cache.

Qt objects are modelled by their observable content: a frame handle is an
opaque string, window sizes are integer pairs, timers and the audio player
are booleans in the state, and filesystem/decoding outcomes are supplied by
an environment record.  All definitions are translated clause by clause
from the Python source.
-/

set_option maxHeartbeats 1000000

/-- Truncation toward zero of a rational, as Python's `int()` conversion. -/
def pyInt (q : ℚ) : Int :=
  Int.sign q.num * ((q.num.natAbs / q.den : Nat) : Int)

/-- A window or image size, as the observable content of a `QSize`. -/
structure Size where
  w : Int
  h : Int
deriving DecidableEq, Repr

/-- `QSize(int(s.w * r), int(s.h * r))`, the scaling pattern used throughout
the source. -/
def scaleSize (s : Size) (r : ℚ) : Size :=
  ⟨pyInt ((s.w : ℚ) * r), pyInt ((s.h : ℚ) * r)⟩

/-- The `AnimationType` enumeration of the source. -/
inductive AnimationType where
  | MAIN | BLINK | ANGER | WALK_AWAY | SLEEP | HEIXIU | HEIXIU_SLEEP
  | DRINK_MILK | CONFUSED | EAT_BURGER | EAT_CHICKEN | SHAKE | ROLL
  | GUITAR | PLAY_HEIXIU | BURP | ANXIETY | LEFT_WALK | RIGHT_WALK | SIT
deriving DecidableEq, Repr

namespace AnimationPriority

/-- `AnimationPriority.IDLE = 0` -/
def IDLE : Nat := 0

/-- `AnimationPriority.BACKGROUND = 10` -/
def BACKGROUND : Nat := 10

/-- `AnimationPriority.INTERACTION = 20` -/
def INTERACTION : Nat := 20

/-- `AnimationPriority.SPECIAL = 30` -/
def SPECIAL : Nat := 30

/-- `AnimationPriority.SYSTEM = 40` -/
def SYSTEM : Nat := 40

/-- `AnimationPriority.FORCE = 50` -/
def FORCE : Nat := 50

end AnimationPriority

/-- The `AnimationConfig` dataclass.  `loops = -1` is the forever sentinel,
hence `loops : Int`.  `on_complete` is `None` for every catalog entry, so it
is represented by a presence flag. -/
structure AnimationConfig where
  folder : String
  frames : Nat
  timer_interval : Nat := 33
  loops : Int := 1
  has_sound : Bool := false
  sound_file : Option String := none
  priority : Nat := AnimationPriority.INTERACTION
  interruptible : Bool := true
  size_scale : ℚ := 1
  has_on_complete : Bool := false
deriving DecidableEq, Repr

/-- The static `DesktopPet.ANIMATIONS` catalog.  `SLEEP` and `HEIXIU_SLEEP`
have no entry in the Python dict, hence `none`. -/
def ANIMATIONS : AnimationType → Option AnimationConfig
  | .MAIN => some
      { folder := "xiaoheichuchang2", frames := 34, timer_interval := 100,
        loops := 1, priority := AnimationPriority.IDLE, interruptible := true }
  | .BLINK => some
      { folder := "zhayan", frames := 2, timer_interval := 100,
        loops := 1, priority := AnimationPriority.BACKGROUND, interruptible := true }
  | .ANGER => some
      { folder := "shengqi", frames := 2, timer_interval := 100,
        loops := 3, priority := AnimationPriority.SPECIAL, interruptible := false }
  | .WALK_AWAY => some
      { folder := "zoukai", frames := 20, timer_interval := 100,
        loops := 1, priority := AnimationPriority.SPECIAL, interruptible := false }
  | .SLEEP => none
  | .HEIXIU => some
      { folder := "heixiu", frames := 39, timer_interval := 33,
        loops := 1, has_sound := true, sound_file := some "heixiu.mp3",
        priority := AnimationPriority.INTERACTION, interruptible := true,
        size_scale := (1 : ℚ) / 2 }
  | .HEIXIU_SLEEP => none
  | .DRINK_MILK => some
      { folder := "henai", frames := 163, timer_interval := 33,
        loops := 3, priority := AnimationPriority.INTERACTION, interruptible := true }
  | .CONFUSED => some
      { folder := "yihuo", frames := 39, timer_interval := 33,
        loops := 1, has_sound := true, sound_file := some "yihuo.mp3",
        priority := AnimationPriority.INTERACTION, interruptible := true }
  | .EAT_BURGER => some
      { folder := "chihanbao", frames := 112, timer_interval := 33,
        loops := 3, priority := AnimationPriority.INTERACTION, interruptible := true }
  | .EAT_CHICKEN => some
      { folder := "chijitui", frames := 45, timer_interval := 33,
        loops := 3, priority := AnimationPriority.INTERACTION, interruptible := true }
  | .SHAKE => some
      { folder := "yao", frames := 28, timer_interval := 33,
        loops := 1, priority := AnimationPriority.INTERACTION, interruptible := true }
  | .ROLL => some
      { folder := "gun1", frames := 118, timer_interval := 33,
        loops := 1, priority := AnimationPriority.INTERACTION, interruptible := true,
        size_scale := (3 : ℚ) / 2 }
  | .GUITAR => some
      { folder := "tanjita", frames := 30, timer_interval := 33,
        loops := 3, priority := AnimationPriority.INTERACTION, interruptible := true }
  | .PLAY_HEIXIU => some
      { folder := "wanheixiu", frames := 33, timer_interval := 33,
        loops := 3, priority := AnimationPriority.INTERACTION, interruptible := true }
  | .BURP => some
      { folder := "dage1", frames := 45, timer_interval := 33,
        loops := 1, priority := AnimationPriority.INTERACTION, interruptible := false }
  | .ANXIETY => some
      { folder := "jiaolv", frames := 2, timer_interval := 100,
        loops := -1, priority := AnimationPriority.SYSTEM, interruptible := false }
  | .LEFT_WALK => some
      { folder := "left_walk", frames := 30, timer_interval := 33,
        loops := -1, priority := AnimationPriority.SPECIAL, interruptible := true }
  | .RIGHT_WALK => some
      { folder := "right_walk", frames := 30, timer_interval := 33,
        loops := -1, priority := AnimationPriority.SPECIAL, interruptible := true }
  | .SIT => some
      { folder := "sit", frames := 1, timer_interval := 100,
        loops := -1, priority := AnimationPriority.SPECIAL, interruptible := true }

/-- The mutable `AnimationState` object.  Frames are opaque handles. -/
structure AnimationState where
  current_animation : Option AnimationType := none
  current_priority : Nat := AnimationPriority.IDLE
  is_playing : Bool := false
  current_index : Nat := 0
  loop_count : Nat := 0
  start_time : Int := 0
  direction : Int := 1
  cached_frames : Option (List String) := none
  original_size : Option Size := none
deriving DecidableEq, Repr

/-- `AnimationState.can_interrupt`: anything may start while idle; while
playing, only a strictly greater priority passes. -/
def AnimationState.can_interrupt (a : AnimationState) (new_priority : Nat) : Bool :=
  if !a.is_playing then true
  else decide (new_priority > a.current_priority)

/-- `AnimationState.reset`: back to the idle defaults.  `start_time`,
`direction` and `original_size` are not touched by the source. -/
def AnimationState.reset (a : AnimationState) : AnimationState :=
  { a with current_animation := none, current_priority := AnimationPriority.IDLE,
           is_playing := false, current_index := 0, loop_count := 0,
           cached_frames := none }

/-- Frame loading as seen by the pet: the `ResourceManager.load_frames`
result for a `(folder, scaled size)` pair.  The cache makes this a pure
function of its arguments, so the pet layer takes it as an oracle. -/
def FrameOracle : Type := String → Size → List String

/-- Sound loading as seen by the pet: whether `load_sound(folder, file)`
returns a playable handle. -/
def SoundOracle : Type := String → String → Bool

/-- The observable state of a `DesktopPet` instance: the animation run
state plus the window size, the two relevant timers, the audio player, the
displayed pixmap, the click buffer and the mode flags. -/
structure PetState where
  anim : AnimationState
  window_size : Size
  base_size : Size
  main_frames : List String
  sleep_image : Option String
  image_label : Option String
  animation_timer_active : Bool
  animation_timer_interval : Nat
  free_active_timer_active : Bool
  audio_playing : Bool
  media_player_ok : Bool
  click_timestamps : List Int
  is_force_sleeping : Bool
  is_heixiu_mode : Bool
  now : Int
deriving DecidableEq, Repr

/-- `DesktopPet._get_animation_frames`: look up the config and load the
frames at the current window size scaled by `size_scale`. -/
def get_animation_frames (lf : FrameOracle) (s : PetState)
    (t : AnimationType) : List String :=
  match ANIMATIONS t with
  | none => []
  | some cfg => lf cfg.folder (scaleSize s.window_size cfg.size_scale)

/-- `DesktopPet._stop_current_animation`: stop both animation timers, stop
audio if a player exists and is playing, and restore a saved window size. -/
def stop_current_animation (s : PetState) : PetState :=
  let s1 := { s with animation_timer_active := false,
                     free_active_timer_active := false }
  let s2 := if s1.media_player_ok && s1.audio_playing then
              { s1 with audio_playing := false }
            else s1
  match s2.anim.original_size with
  | some os =>
      { s2 with window_size := os,
                anim := { s2.anim with original_size := none } }
  | none => s2

/-- `DesktopPet._start_animation`: the single scheduling entry point.
Rejects unknown animations; rejects when `force` is false and
`can_interrupt` fails; otherwise stops the current animation, loads frames,
aborts on an empty frame list, and installs the new run state, window
size, first frame, audio and timer. -/
def start_animation (lf : FrameOracle) (snd : SoundOracle) (s : PetState)
    (t : AnimationType) (force : Bool) : Bool × PetState :=
  match ANIMATIONS t with
  | none => (false, s)
  | some cfg =>
    if !force && !(s.anim.can_interrupt cfg.priority) then (false, s)
    else
      let s1 := stop_current_animation s
      let frames := get_animation_frames lf s1 t
      if frames.isEmpty then (false, s1)
      else
        let a : AnimationState :=
          { s1.anim with current_animation := some t,
                         current_priority := cfg.priority,
                         is_playing := true,
                         current_index := 0,
                         loop_count := 0,
                         start_time := s1.now,
                         cached_frames := some frames }
        let s2 := { s1 with anim := a }
        let s3 :=
          if cfg.size_scale = 1 then s2
          else
            { s2 with anim := { s2.anim with original_size := some s2.window_size },
                      window_size := scaleSize s2.base_size cfg.size_scale }
        let s4 := { s3 with image_label := frames.head? }
        let s5 :=
          if cfg.has_sound && cfg.sound_file.isSome && s4.media_player_ok then
            if snd cfg.folder (cfg.sound_file.getD "") then
              { s4 with audio_playing := true }
            else s4
          else s4
        let s6 := { s5 with animation_timer_active := true,
                            animation_timer_interval := cfg.timer_interval }
        (true, s6)

/-- `DesktopPet._end_current_animation`.  `rand` is the `randint(1, 100)`
draw used by the 30% burp branch.  No catalog entry has an `on_complete`
callback, so that block is a no-op.  The anger branch force-starts the
walk-away animation and returns; the eat/drink branch force-starts a burp
on `rand <= 30`; otherwise the run is stopped, the state reset, and the
last main frame shown. -/
def end_current_animation (lf : FrameOracle) (snd : SoundOracle) (rand : Nat)
    (s : PetState) : PetState :=
  if s.anim.current_animation = some AnimationType.ANGER then
    (start_animation lf snd s AnimationType.WALK_AWAY true).2
  else if (s.anim.current_animation = some AnimationType.DRINK_MILK ∨
           s.anim.current_animation = some AnimationType.EAT_BURGER ∨
           s.anim.current_animation = some AnimationType.EAT_CHICKEN) ∧ rand ≤ 30 then
    (start_animation lf snd s AnimationType.BURP true).2
  else
    let s1 := stop_current_animation s
    let s2 := { s1 with anim := s1.anim.reset }
    match s2.main_frames.getLast? with
    | some f => { s2 with image_label := some f }
    | none => s2

/-- `DesktopPet._update_current_animation`: the per-tick advance.  Returns
the successor state and whether this tick reached
`_end_current_animation`.  The guard mirrors Python truthiness: it bails
out when not playing or when `cached_frames` is `None` or empty.  The
catalog lookup cannot miss while a catalog animation is ticking; a missing
entry is modelled as a no-op tick. -/
def update_current_animation (lf : FrameOracle) (snd : SoundOracle)
    (rand : Nat) (s : PetState) : PetState × Bool :=
  if !s.anim.is_playing || (s.anim.cached_frames.getD []).isEmpty then (s, false)
  else
    match s.anim.current_animation.bind ANIMATIONS with
    | none => (s, false)
    | some cfg =>
      let frames := s.anim.cached_frames.getD []
      if s.anim.current_index < frames.length then
        ({ s with image_label := frames[s.anim.current_index]?,
                  anim := { s.anim with current_index := s.anim.current_index + 1 } },
         false)
      else
        if cfg.loops = -1 then
          ({ s with anim := { s.anim with current_index := 0 } }, false)
        else
          let a := { s.anim with current_index := 0,
                                 loop_count := s.anim.loop_count + 1 }
          let s1 := { s with anim := a }
          if (a.loop_count : Int) ≥ cfg.loops then
            (end_current_animation lf snd rand s1, true)
          else (s1, false)

/-- Iterated per-tick advance: the state after `n` timer firings. -/
def runUpdates (lf : FrameOracle) (snd : SoundOracle) (rand : Nat) :
    Nat → PetState → PetState
  | 0, s => s
  | n + 1, s => runUpdates lf snd rand n (update_current_animation lf snd rand s).1

/-- `DesktopPet._is_sleeping`. -/
def is_sleeping (s : PetState) : Bool :=
  decide (s.anim.current_animation = some AnimationType.SLEEP ∨
          s.anim.current_animation = some AnimationType.HEIXIU_SLEEP)

/-- `DesktopPet._enter_sleep`: guarded by `_is_sleeping` and
`is_force_sleeping`; stops the current animation, records `SLEEP` at
`SYSTEM` priority, and shows the sleep image (or a drawn placeholder). -/
def enter_sleep (s : PetState) : PetState :=
  if is_sleeping s || s.is_force_sleeping then s
  else
    let s1 := stop_current_animation s
    let s2 := { s1 with anim := { s1.anim with
                  current_animation := some AnimationType.SLEEP,
                  current_priority := AnimationPriority.SYSTEM } }
    match s2.sleep_image with
    | some img => { s2 with image_label := some img }
    | none => { s2 with image_label := some "sleep-placeholder" }

/-- `DesktopPet._check_anger_condition`: prune clicks older than 10 s,
append the current time, and on reaching 15 entries clear the buffer and
force-start the anger animation.  The returned flag reports whether the
anger branch fired. -/
def check_anger_condition (lf : FrameOracle) (snd : SoundOracle)
    (s : PetState) : PetState × Bool :=
  let pruned := s.click_timestamps.filter (fun t => decide (s.now - t ≤ 10))
  let ts := pruned ++ [s.now]
  if 15 ≤ ts.length then
    ((start_animation lf snd { s with click_timestamps := [] }
        AnimationType.ANGER true).2, true)
  else
    ({ s with click_timestamps := ts }, false)

/-- A sequence of counted clicks at the given timestamps: each click sets
the clock and runs `_check_anger_condition`; the second component counts
how often the anger branch fired. -/
def runClicks (lf : FrameOracle) (snd : SoundOracle) :
    List Int → PetState → PetState × Nat
  | [], s => (s, 0)
  | t :: rest, s =>
    let r1 := check_anger_condition lf snd { s with now := t }
    let r2 := runClicks lf snd rest r1.1
    (r2.1, (if r1.2 then 1 else 0) + r2.2)

/-- A decoded pixmap handle: the source path it came from together with
the size it was produced at (the base pixmap carries the image's own
size; a scaled copy carries the requested size). -/
structure Pix where
  path : String
  size : Size
deriving DecidableEq, Repr

/-- Filesystem and decoder environment for the `ResourceManager`:
directory existence, file existence, decodability, and the intrinsic size
of a decodable image. -/
structure FsEnv where
  dirOk : String → Bool
  fileOk : String → Bool
  decodeOk : String → Bool
  baseSize : String → Size

/-- The `ResourceManager` caches.  Maps are modelled as functions to
`Option`; `decode_log` records every successful full decode
(`QImage(img_path)` producing a non-null image), newest last. -/
structure RMState where
  frame_cache : String → Option (List Pix)
  image_cache : String → Option Pix
  base_pixmap_cache : String → Option Pix
  decode_log : List String

/-- The empty caches of a fresh `ResourceManager`. -/
def initRM : RMState :=
  { frame_cache := fun _ => none, image_cache := fun _ => none,
    base_pixmap_cache := fun _ => none, decode_log := [] }

/-- `ResourceManager._get_cache_key`. -/
def get_cache_key (folder : String) (filename : Option String)
    (size : Option Size) : String :=
  let k := folder
  let k := match filename with
           | some f => k ++ "/" ++ f
           | none => k
  match size with
  | some s => k ++ "_" ++ toString s.w ++ "x" ++ toString s.h
  | none => k

/-- The path `folder/i.png` of the `i`-th frame. -/
def imgPath (folder : String) (i : Nat) : String :=
  folder ++ "/" ++ toString i ++ ".png"

/-- `ResourceManager._load_and_scale_pixmap`: decode the base image on
first sight and cache it, then return it unscaled when the sizes match and
a scaled copy otherwise.  A failed decode caches nothing and yields
`none`. -/
def load_and_scale_pixmap (env : FsEnv) (st : RMState) (path : String)
    (size : Size) : RMState × Option Pix :=
  match st.base_pixmap_cache path with
  | none =>
    if env.decodeOk path then
      let base : Pix := ⟨path, env.baseSize path⟩
      let st1 := { st with
        base_pixmap_cache := fun p => if p = path then some base
                                      else st.base_pixmap_cache p,
        decode_log := st.decode_log ++ [path] }
      (st1, some (if base.size = size then base else ⟨path, size⟩))
    else (st, none)
  | some base =>
    (st, some (if base.size = size then base else ⟨path, size⟩))

/-- The frame loop of `ResourceManager.load_frames` over a list of frame
indices: skip missing files, load-and-scale the rest, keep the non-null
results in order. -/
def load_frames_loop (env : FsEnv) (st : RMState) (folder : String)
    (size : Size) : List Nat → RMState × List Pix
  | [] => (st, [])
  | i :: rest =>
    if env.fileOk (imgPath folder i) then
      let r1 := load_and_scale_pixmap env st (imgPath folder i) size
      let r2 := load_frames_loop env r1.1 folder size rest
      match r1.2 with
      | some p => (r2.1, p :: r2.2)
      | none => (r2.1, r2.2)
    else load_frames_loop env st folder size rest

/-- `ResourceManager.load_frames`: return the cached sequence when the
`(folder, size)` key is present; return an empty list (without caching)
when the folder is missing; otherwise walk frames `1..total`, cache the
result under the key, and return it. -/
def load_frames (env : FsEnv) (st : RMState) (folder : String)
    (total : Nat) (size : Size) : RMState × List Pix :=
  let key := get_cache_key folder none (some size)
  match st.frame_cache key with
  | some fs => (st, fs)
  | none =>
    if !env.dirOk folder then (st, [])
    else
      let r := load_frames_loop env st folder size (List.range' 1 total)
      ({ r.1 with frame_cache := fun k => if k = key then some r.2
                                          else r.1.frame_cache k },
       r.2)

/-- `ResourceManager.load_single_image`: like `load_frames` for a single
file, keyed by `(folder, filename, size)`; only a successful load is
cached. -/
def load_single_image (env : FsEnv) (st : RMState) (folder filename : String)
    (size : Size) : RMState × Option Pix :=
  let key := get_cache_key folder (some filename) (some size)
  match st.image_cache key with
  | some p => (st, some p)
  | none =>
    let path := folder ++ "/" ++ filename
    if env.fileOk path then
      let r := load_and_scale_pixmap env st path size
      match r.2 with
      | some p =>
        ({ r.1 with image_cache := fun k => if k = key then some p
                                            else r.1.image_cache k },
         some p)
      | none => (r.1, none)
    else (st, none)

/-- The animations preloaded by `ResourceManager.preload_resources`. -/
def priority_animations : List AnimationType :=
  [AnimationType.MAIN, AnimationType.BLINK, AnimationType.SLEEP,
   AnimationType.ANGER, AnimationType.ANXIETY]

/-- One iteration of the `preload_resources` loop: animations without a
catalog entry are skipped, and only the first frame (`min 1 frames`) is
loaded at the default size scaled by the config's `size_scale`. -/
def preload_step (env : FsEnv) (default_size : Size) (st : RMState)
    (t : AnimationType) : RMState :=
  match ANIMATIONS t with
  | none => st
  | some cfg =>
    (load_frames env st cfg.folder (min 1 cfg.frames)
      (scaleSize default_size cfg.size_scale)).1

/-- `ResourceManager.preload_resources`. -/
def preload_resources (env : FsEnv) (default_size : Size) (st : RMState) : RMState :=
  priority_animations.foldl (preload_step env default_size) st

/-- A call against the `ResourceManager`, for stating whole-history cache
properties. -/
inductive RMOp where
  | frames (folder : String) (total : Nat) (size : Size)
  | image (folder filename : String) (size : Size)

/-- Run a sequence of `ResourceManager` calls. -/
def runOps (env : FsEnv) : List RMOp → RMState → RMState
  | [], st => st
  | RMOp.frames f n sz :: rest, st => runOps env rest (load_frames env st f n sz).1
  | RMOp.image f name sz :: rest, st => runOps env rest (load_single_image env st f name sz).1

/-! ## Concrete fixtures for witnesses and counterexamples -/

/-- An oracle under which every folder yields one frame at any size. -/
def lfOne : FrameOracle := fun f _ => [f ++ "/1"]

/-- An oracle under which every folder yields two frames at any size. -/
def lfTwo : FrameOracle := fun f _ => [f ++ "/1", f ++ "/2"]

/-- An oracle under which no folder yields any frame. -/
def lfNone : FrameOracle := fun _ _ => []

/-- A sound oracle that never produces a handle. -/
def sndNo : SoundOracle := fun _ _ => false

/-- An idle pet with default run state. -/
def basePet : PetState :=
  { anim := {}, window_size := ⟨200, 200⟩, base_size := ⟨200, 200⟩,
    main_frames := ["xiaoheichuchang2/1", "xiaoheichuchang2/34"],
    sleep_image := some "shuijiao/1.png", image_label := none,
    animation_timer_active := false, animation_timer_interval := 100,
    free_active_timer_active := false, audio_playing := false,
    media_player_ok := true, click_timestamps := [],
    is_force_sleeping := false, is_heixiu_mode := false, now := 0 }

/-- A pet in the middle of playing the non-interruptible anger animation. -/
def angerPet : PetState :=
  { basePet with
    anim := { current_animation := some AnimationType.ANGER,
              current_priority := AnimationPriority.SPECIAL,
              is_playing := true, current_index := 1, loop_count := 0,
              start_time := 0, direction := 1,
              cached_frames := some ["shengqi/1", "shengqi/2"],
              original_size := none },
    animation_timer_active := true, animation_timer_interval := 100 }

/-! ## Structural lemmas about `stop_current_animation` -/

/-- Stopping the current animation never changes the run-state bookkeeping
fields; it only stops the timers and audio, restores a saved window size
and clears the saved-size slot. -/
theorem stop_spec (s : PetState) :
    (stop_current_animation s).anim.current_animation = s.anim.current_animation ∧
    (stop_current_animation s).anim.current_priority = s.anim.current_priority ∧
    (stop_current_animation s).anim.is_playing = s.anim.is_playing ∧
    (stop_current_animation s).anim.current_index = s.anim.current_index ∧
    (stop_current_animation s).anim.loop_count = s.anim.loop_count ∧
    (stop_current_animation s).anim.cached_frames = s.anim.cached_frames ∧
    (stop_current_animation s).anim.start_time = s.anim.start_time ∧
    (stop_current_animation s).anim.original_size = none ∧
    (stop_current_animation s).animation_timer_active = false ∧
    (stop_current_animation s).free_active_timer_active = false ∧
    (stop_current_animation s).audio_playing = (!s.media_player_ok && s.audio_playing) ∧
    (stop_current_animation s).window_size = s.anim.original_size.getD s.window_size ∧
    (stop_current_animation s).base_size = s.base_size ∧
    (stop_current_animation s).main_frames = s.main_frames ∧
    (stop_current_animation s).sleep_image = s.sleep_image ∧
    (stop_current_animation s).image_label = s.image_label ∧
    (stop_current_animation s).media_player_ok = s.media_player_ok ∧
    (stop_current_animation s).click_timestamps = s.click_timestamps ∧
    (stop_current_animation s).is_force_sleeping = s.is_force_sleeping ∧
    (stop_current_animation s).is_heixiu_mode = s.is_heixiu_mode ∧
    (stop_current_animation s).now = s.now := by
  unfold stop_current_animation
  dsimp only
  split <;> split <;> simp_all <;>
    (intro h2; cases hmp : s.media_player_ok <;> simp_all)

/-- Claim C4: a non-forced request made while an animation is playing, at a
priority not strictly greater than the active one, returns `false` and
leaves the entire pet state untouched: no run-state field changes, no
timer is stopped or started, and no frame, size or audio command is
emitted. -/
theorem c4_low_priority_request_rejected_without_side_effects
    (lf : FrameOracle) (snd : SoundOracle) (s : PetState) (t : AnimationType)
    {cfg : AnimationConfig} (hc : ANIMATIONS t = some cfg)
    (hp : s.anim.is_playing = true)
    (hle : cfg.priority ≤ s.anim.current_priority) :
    start_animation lf snd s t false = (false, s) := by
  have h1 : s.anim.can_interrupt cfg.priority = false := by
    unfold AnimationState.can_interrupt
    rw [hp]
    simp [Nat.not_lt.mpr hle]
  unfold start_animation
  rw [hc]
  simp [h1]

/-- Witness for C4: a `BLINK` request (priority 10) against the playing
anger animation (priority 30) is rejected with the state unchanged. -/
theorem c4_witness :
    start_animation lfOne sndNo angerPet AnimationType.BLINK false
      = (false, angerPet) :=
  c4_low_priority_request_rejected_without_side_effects lfOne sndNo angerPet
    AnimationType.BLINK rfl rfl (by decide)

/-- Projection: stopping preserves the click buffer. -/
theorem stop_clicks (s : PetState) :
    (stop_current_animation s).click_timestamps = s.click_timestamps := by
  have h := stop_spec s
  tauto

/-- Projection: stopping preserves `is_playing`. -/
theorem stop_is_playing (s : PetState) :
    (stop_current_animation s).anim.is_playing = s.anim.is_playing := by
  have h := stop_spec s
  tauto

/-- A request whose gate passes (forced, or allowed by `can_interrupt`) but
whose frame load comes back empty returns `false` with exactly the stopped
state. -/
theorem start_empty_frames_spec (lf : FrameOracle) (snd : SoundOracle)
    (s : PetState) (t : AnimationType) (force : Bool)
    {cfg : AnimationConfig} (hc : ANIMATIONS t = some cfg)
    (hgate : force = true ∨ s.anim.can_interrupt cfg.priority = true)
    (hfr : get_animation_frames lf (stop_current_animation s) t = []) :
    start_animation lf snd s t force = (false, stop_current_animation s) := by
  have hcond : (!force && !(s.anim.can_interrupt cfg.priority)) = false := by
    rcases hgate with h | h <;> simp [h]
  unfold start_animation
  rw [hc]
  dsimp only
  rw [hcond]
  simp [hfr]

/-- An accepted request with a non-empty frame load: the result is `true`
and the new run state carries the requested animation with priority,
cursor, loop counter, timer and frames freshly installed; the click buffer
is untouched. -/
theorem start_accept_spec (lf : FrameOracle) (snd : SoundOracle)
    (s : PetState) (t : AnimationType) (force : Bool)
    {cfg : AnimationConfig} (hc : ANIMATIONS t = some cfg)
    (hgate : force = true ∨ s.anim.can_interrupt cfg.priority = true)
    (hfr : get_animation_frames lf (stop_current_animation s) t ≠ []) :
    (start_animation lf snd s t force).1 = true ∧
    (start_animation lf snd s t force).2.anim.current_animation = some t ∧
    (start_animation lf snd s t force).2.anim.current_priority = cfg.priority ∧
    (start_animation lf snd s t force).2.anim.is_playing = true ∧
    (start_animation lf snd s t force).2.anim.current_index = 0 ∧
    (start_animation lf snd s t force).2.anim.loop_count = 0 ∧
    (start_animation lf snd s t force).2.anim.cached_frames
      = some (get_animation_frames lf (stop_current_animation s) t) ∧
    (start_animation lf snd s t force).2.animation_timer_active = true ∧
    (start_animation lf snd s t force).2.animation_timer_interval = cfg.timer_interval ∧
    (start_animation lf snd s t force).2.click_timestamps = s.click_timestamps := by
  have hcond : (!force && !(s.anim.can_interrupt cfg.priority)) = false := by
    rcases hgate with h | h <;> simp [h]
  have hclick := stop_clicks s
  obtain ⟨x, xs, hfr2⟩ := List.exists_cons_of_ne_nil hfr
  unfold start_animation
  rw [hc]
  dsimp only
  rw [hcond]
  simp only [Bool.false_eq_true, if_false]
  rw [hfr2]
  simp only [List.isEmpty_cons, Bool.false_eq_true, if_false]
  split <;> split <;> (try split) <;> simp_all

/-- A non-forced request at priority less than or equal to the active one,
made while playing, is rejected with no state change. -/
theorem start_reject_spec (lf : FrameOracle) (snd : SoundOracle)
    (s : PetState) (t : AnimationType)
    {cfg : AnimationConfig} (hc : ANIMATIONS t = some cfg)
    (hp : s.anim.is_playing = true)
    (hle : cfg.priority ≤ s.anim.current_priority) :
    start_animation lf snd s t false = (false, s) := by
  have h1 : s.anim.can_interrupt cfg.priority = false := by
    unfold AnimationState.can_interrupt
    rw [hp]
    simp [Nat.not_lt.mpr hle]
  unfold start_animation
  rw [hc]
  simp [h1]

/-- Claim C1 (amended): while an animation is playing — including the
non-interruptible anger, burp and anxiety animations — a `force=false`
request is decided by the priority comparison alone: it is rejected
without side effects when the requested priority is not strictly greater,
and it passes the interrupt gate (succeeding whenever its frames load)
when the requested priority is strictly greater.  The descriptor's
`interruptible` flag is never consulted by `can_interrupt`. -/
theorem c1_interrupt_gate_is_priority_only
    (lf : FrameOracle) (snd : SoundOracle) (s : PetState) (t : AnimationType)
    {cfg : AnimationConfig} (hc : ANIMATIONS t = some cfg)
    (hp : s.anim.is_playing = true) :
    (cfg.priority ≤ s.anim.current_priority →
      start_animation lf snd s t false = (false, s)) ∧
    (s.anim.current_priority < cfg.priority →
      get_animation_frames lf (stop_current_animation s) t ≠ [] →
      (start_animation lf snd s t false).1 = true) := by
  constructor
  · intro hle
    exact start_reject_spec lf snd s t hc hp hle
  · intro hlt hfr
    have hcan : s.anim.can_interrupt cfg.priority = true := by
      unfold AnimationState.can_interrupt
      rw [hp]
      simp [hlt]
    exact (start_accept_spec lf snd s t false hc (Or.inr hcan) hfr).1

/-- Counterexample to claim C1 as stated: the anger animation is playing
and its descriptor is non-interruptible, yet a `force=false` request for
the higher-priority anxiety animation is accepted (`_start_animation`
returns `true`, not `false`). -/
theorem c1_counterexample :
    (ANIMATIONS AnimationType.ANGER).map AnimationConfig.interruptible
        = some false ∧
    angerPet.anim.is_playing = true ∧
    (start_animation lfOne sndNo angerPet AnimationType.ANXIETY false).1 = true := by
  decide

/-- Witness for C1 (amended): the strictly-higher-priority anxiety request
against the playing anger animation passes the gate and starts. -/
theorem c1_witness :
    (start_animation lfOne sndNo angerPet AnimationType.ANXIETY false).1 = true :=
  (c1_interrupt_gate_is_priority_only lfOne sndNo angerPet AnimationType.ANXIETY
    rfl rfl).2 (by decide) (by decide)

/-- A pet in the middle of playing the half-size heixiu animation with
its timer running, audio playing and the pre-scale size saved. -/
def heixiuPet : PetState :=
  { basePet with
    anim := { current_animation := some AnimationType.HEIXIU,
              current_priority := AnimationPriority.INTERACTION,
              is_playing := true, current_index := 3, loop_count := 0,
              start_time := 0, direction := 1,
              cached_frames := some ["heixiu/1", "heixiu/2"],
              original_size := some ⟨200, 200⟩ },
    window_size := ⟨100, 100⟩,
    animation_timer_active := true, animation_timer_interval := 33,
    audio_playing := true }

/-- Claim C2 (amended): when an accepted request aborts because its frame
load is empty, `_start_animation` returns `false`, and the run-state
bookkeeping (animation, priority, `is_playing`, cursor, loop counter,
cached frames) is exactly as before the request — but the previous
animation has already been torn down: both animation timers are stopped,
playing audio is stopped (when a player exists), and a saved window size
has been restored with the saved-size slot cleared. -/
theorem c2_empty_frames_abort_returns_stopped_state
    (lf : FrameOracle) (snd : SoundOracle) (s : PetState) (t : AnimationType)
    (force : Bool) {cfg : AnimationConfig} (hc : ANIMATIONS t = some cfg)
    (hgate : force = true ∨ s.anim.can_interrupt cfg.priority = true)
    (hfr : get_animation_frames lf (stop_current_animation s) t = []) :
    start_animation lf snd s t force = (false, stop_current_animation s) ∧
    (stop_current_animation s).anim.current_animation = s.anim.current_animation ∧
    (stop_current_animation s).anim.current_priority = s.anim.current_priority ∧
    (stop_current_animation s).anim.is_playing = s.anim.is_playing ∧
    (stop_current_animation s).anim.current_index = s.anim.current_index ∧
    (stop_current_animation s).anim.loop_count = s.anim.loop_count ∧
    (stop_current_animation s).anim.cached_frames = s.anim.cached_frames ∧
    (stop_current_animation s).animation_timer_active = false ∧
    (stop_current_animation s).free_active_timer_active = false ∧
    (stop_current_animation s).audio_playing = (!s.media_player_ok && s.audio_playing) ∧
    (stop_current_animation s).window_size = s.anim.original_size.getD s.window_size ∧
    (stop_current_animation s).anim.original_size = none := by
  refine ⟨start_empty_frames_spec lf snd s t force hc hgate hfr, ?_⟩
  have h := stop_spec s
  tauto

/-- Counterexample to claim C2 as stated: a forced request whose frame
load is empty returns `false`, but the previously playing animation's
timer has been stopped, its audio stopped and its scaled window size
restored — the previous state is not left unchanged. -/
theorem c2_counterexample :
    (start_animation lfNone sndNo heixiuPet AnimationType.SHAKE true).1 = false ∧
    heixiuPet.animation_timer_active = true ∧
    (start_animation lfNone sndNo heixiuPet AnimationType.SHAKE true).2.animation_timer_active
      = false ∧
    heixiuPet.audio_playing = true ∧
    (start_animation lfNone sndNo heixiuPet AnimationType.SHAKE true).2.audio_playing
      = false ∧
    heixiuPet.window_size
      ≠ (start_animation lfNone sndNo heixiuPet AnimationType.SHAKE true).2.window_size := by
  decide

/-- Witness for C2 (amended): the forced shake request with no loadable
frames returns `false` together with the stopped heixiu state. -/
theorem c2_witness :
    start_animation lfNone sndNo heixiuPet AnimationType.SHAKE true
      = (false, stop_current_animation heixiuPet) :=
  (c2_empty_frames_abort_returns_stopped_state lfNone sndNo heixiuPet
    AnimationType.SHAKE true rfl (Or.inl rfl) (by decide)).1

/-- Claim C5: whenever the anger animation reaches its natural end, the
walk-away animation is force-started and becomes the active playing
animation — no random draw is involved (`rand` is universally
quantified and unused on this path). -/
theorem c5_anger_natural_end_forces_walk_away
    (lf : FrameOracle) (snd : SoundOracle) (rand : Nat) (s : PetState)
    (hs : s.anim.current_animation = some AnimationType.ANGER)
    (hlf : ∀ sz, lf "zoukai" sz ≠ []) :
    (end_current_animation lf snd rand s).anim.current_animation
      = some AnimationType.WALK_AWAY ∧
    (end_current_animation lf snd rand s).anim.is_playing = true ∧
    (end_current_animation lf snd rand s).anim.current_priority
      = AnimationPriority.SPECIAL := by
  have hfr : get_animation_frames lf (stop_current_animation s)
      AnimationType.WALK_AWAY ≠ [] := by
    unfold get_animation_frames
    simp only [ANIMATIONS]
    exact hlf _
  have h := start_accept_spec lf snd s AnimationType.WALK_AWAY true rfl
    (Or.inl rfl) hfr
  unfold end_current_animation
  rw [hs, if_pos rfl]
  exact ⟨h.2.1, h.2.2.2.1, h.2.2.1⟩

/-- Witness for C5: with walk-away frames available, ending the playing
anger animation activates walk-away. -/
theorem c5_witness :
    (end_current_animation lfOne sndNo 50 angerPet).anim.current_animation
      = some AnimationType.WALK_AWAY ∧
    (end_current_animation lfOne sndNo 50 angerPet).anim.is_playing = true := by
  have h := c5_anger_natural_end_forces_walk_away lfOne sndNo 50 angerPet rfl
    (fun sz => by simp [lfOne])
  exact ⟨h.1, h.2.1⟩

/-- One tick of a forever-looping animation: the flag is never set, the
run identity and loop counter are preserved, and a cursor at or past the
frame count is reset to zero. -/
theorem update_forever_step (lf : FrameOracle) (snd : SoundOracle)
    (rand : Nat) (s : PetState) (t : AnimationType) {cfg : AnimationConfig}
    (fr : List String)
    (hc : ANIMATIONS t = some cfg) (hloops : cfg.loops = -1)
    (hp : s.anim.is_playing = true) (ha : s.anim.current_animation = some t)
    (hfr : s.anim.cached_frames = some fr) (hne : fr ≠ []) :
    (update_current_animation lf snd rand s).2 = false ∧
    (update_current_animation lf snd rand s).1.anim.is_playing = true ∧
    (update_current_animation lf snd rand s).1.anim.current_animation = some t ∧
    (update_current_animation lf snd rand s).1.anim.cached_frames = some fr ∧
    (update_current_animation lf snd rand s).1.anim.loop_count = s.anim.loop_count ∧
    (fr.length ≤ s.anim.current_index →
      (update_current_animation lf snd rand s).1.anim.current_index = 0) := by
  obtain ⟨x, xs, rfl⟩ := List.exists_cons_of_ne_nil hne
  unfold update_current_animation
  rw [hp, ha, hfr]
  simp only [Option.some_bind, hc, Option.getD_some, List.isEmpty_cons,
    Bool.not_true, Bool.false_or, Bool.false_eq_true, if_false]
  split
  · rename_i hlt
    refine ⟨rfl, by simp [hp], by simp [ha], by simp [hfr], rfl, fun hle => ?_⟩
    omega
  · rename_i hge
    exact ⟨rfl, by simp [hp], by simp [ha], by simp [hfr], rfl, fun _ => rfl⟩

/-- Iterating ticks over a forever-looping animation preserves the playing
state, the active animation, the cached frames and the loop counter. -/
theorem runUpdates_forever (lf : FrameOracle) (snd : SoundOracle) (rand : Nat)
    (t : AnimationType) {cfg : AnimationConfig} (fr : List String)
    (hc : ANIMATIONS t = some cfg) (hloops : cfg.loops = -1)
    (hne : fr ≠ []) :
    ∀ (n : Nat) (s : PetState), s.anim.is_playing = true →
      s.anim.current_animation = some t → s.anim.cached_frames = some fr →
      (runUpdates lf snd rand n s).anim.is_playing = true ∧
      (runUpdates lf snd rand n s).anim.current_animation = some t ∧
      (runUpdates lf snd rand n s).anim.cached_frames = some fr ∧
      (runUpdates lf snd rand n s).anim.loop_count = s.anim.loop_count := by
  intro n
  induction n with
  | zero =>
    intro s hp ha hfr
    exact ⟨hp, ha, hfr, rfl⟩
  | succ n ih =>
    intro s hp ha hfr
    have hstep := update_forever_step lf snd rand s t fr hc hloops hp ha hfr hne
    have h1 := ih (update_current_animation lf snd rand s).1
      hstep.2.1 hstep.2.2.1 hstep.2.2.2.1
    simp only [runUpdates]
    exact ⟨h1.1, h1.2.1, h1.2.2.1, by rw [h1.2.2.2, hstep.2.2.2.2.1]⟩

/-- Claim C7: a playing animation whose descriptor carries the forever
sentinel (`loops = -1`) never reaches `_end_current_animation` from the
tick path: after any number of ticks it is still playing the same
animation with an unchanged loop counter, the next tick's end flag is
`false`, and a cursor that has reached the frame count is reset to zero
without any loop increment. -/
theorem c7_forever_loop_never_naturally_ends (lf : FrameOracle)
    (snd : SoundOracle) (rand : Nat) (s : PetState) (t : AnimationType)
    {cfg : AnimationConfig} (fr : List String)
    (hc : ANIMATIONS t = some cfg) (hloops : cfg.loops = -1)
    (hp : s.anim.is_playing = true) (ha : s.anim.current_animation = some t)
    (hfr : s.anim.cached_frames = some fr) (hne : fr ≠ []) (n : Nat) :
    (runUpdates lf snd rand n s).anim.is_playing = true ∧
    (runUpdates lf snd rand n s).anim.current_animation = some t ∧
    (runUpdates lf snd rand n s).anim.cached_frames = some fr ∧
    (runUpdates lf snd rand n s).anim.loop_count = s.anim.loop_count ∧
    (update_current_animation lf snd rand (runUpdates lf snd rand n s)).2 = false ∧
    (fr.length ≤ (runUpdates lf snd rand n s).anim.current_index →
      (update_current_animation lf snd rand
        (runUpdates lf snd rand n s)).1.anim.current_index = 0) := by
  have h := runUpdates_forever lf snd rand t fr hc hloops hne n s hp ha hfr
  have hstep := update_forever_step lf snd rand (runUpdates lf snd rand n s) t fr
    hc hloops h.1 h.2.1 h.2.2.1 hne
  exact ⟨h.1, h.2.1, h.2.2.1, h.2.2.2, hstep.1, hstep.2.2.2.2.2⟩

/-- A pet playing the forever-looping anxiety animation. -/
def anxietyPet : PetState :=
  { basePet with
    anim := { current_animation := some AnimationType.ANXIETY,
              current_priority := AnimationPriority.SYSTEM,
              is_playing := true, current_index := 0, loop_count := 0,
              start_time := 0, direction := 1,
              cached_frames := some ["jiaolv/1", "jiaolv/2"],
              original_size := none },
    animation_timer_active := true, animation_timer_interval := 100 }

/-- Witness for C7: after seven ticks the anxiety animation is still
playing with loop counter 0 and the next tick does not terminate it. -/
theorem c7_witness :
    (runUpdates lfOne sndNo 1 7 anxietyPet).anim.is_playing = true ∧
    (runUpdates lfOne sndNo 1 7 anxietyPet).anim.current_animation
      = some AnimationType.ANXIETY ∧
    (runUpdates lfOne sndNo 1 7 anxietyPet).anim.cached_frames
      = some ["jiaolv/1", "jiaolv/2"] ∧
    (runUpdates lfOne sndNo 1 7 anxietyPet).anim.loop_count
      = anxietyPet.anim.loop_count ∧
    (update_current_animation lfOne sndNo 1
      (runUpdates lfOne sndNo 1 7 anxietyPet)).2 = false := by
  have h := c7_forever_loop_never_naturally_ends lfOne sndNo 1 anxietyPet
    AnimationType.ANXIETY ["jiaolv/1", "jiaolv/2"] rfl rfl rfl rfl rfl
    (by decide) 7
  exact ⟨h.1, h.2.1, h.2.2.1, h.2.2.2.1, h.2.2.2.2.1⟩

/-- Mid-run invariant: `s` is playing animation `t` with cached frames
`fr`, cursor `i` and completed-loop counter `c`. -/
def InRun (t : AnimationType) (fr : List String) (i c : Nat)
    (s : PetState) : Prop :=
  s.anim.is_playing = true ∧ s.anim.current_animation = some t ∧
  s.anim.cached_frames = some fr ∧ s.anim.current_index = i ∧
  s.anim.loop_count = c

/-- Unfolding `runUpdates` from the right. -/
theorem runUpdates_succ_right (lf : FrameOracle) (snd : SoundOracle)
    (rand : Nat) (n : Nat) (s : PetState) :
    runUpdates lf snd rand (n + 1) s
      = (update_current_animation lf snd rand
          (runUpdates lf snd rand n s)).1 := by
  induction n generalizing s with
  | zero => rfl
  | succ n ih =>
    simp only [runUpdates]
    rw [← ih]
    rfl

/-- Splitting an iterated run. -/
theorem runUpdates_add (lf : FrameOracle) (snd : SoundOracle) (rand : Nat)
    (m n : Nat) (s : PetState) :
    runUpdates lf snd rand (m + n) s
      = runUpdates lf snd rand n (runUpdates lf snd rand m s) := by
  induction m generalizing s with
  | zero => simp [runUpdates, Nat.zero_add]
  | succ m ih =>
    have h1 : m + 1 + n = (m + n) + 1 := by omega
    rw [h1]
    simp only [runUpdates]
    rw [show m + n = m + n from rfl]
    exact ih (update_current_animation lf snd rand s).1

/-- One tick of an animation with a finite loop count `N ≥ 1`: below the
frame count the cursor advances and the flag stays `false`; at the frame
count the cursor resets and the loop counter increments, terminating
(flag `true`) exactly when the incremented counter reaches `N`. -/
theorem update_finite_step (lf : FrameOracle) (snd : SoundOracle) (rand : Nat)
    (t : AnimationType) {cfg : AnimationConfig} (fr : List String) (N : Nat)
    (hc : ANIMATIONS t = some cfg) (hloops : cfg.loops = (N : Int))
    (hne : fr ≠ []) (s : PetState) (i c : Nat) (hrun : InRun t fr i c s) :
    (i < fr.length →
      (update_current_animation lf snd rand s).2 = false ∧
      InRun t fr (i + 1) c (update_current_animation lf snd rand s).1) ∧
    (fr.length ≤ i → c + 1 < N →
      (update_current_animation lf snd rand s).2 = false ∧
      InRun t fr 0 (c + 1) (update_current_animation lf snd rand s).1) ∧
    (fr.length ≤ i → c + 1 = N →
      (update_current_animation lf snd rand s).2 = true) := by
  obtain ⟨hp, ha, hfr, hi, hcnt⟩ := hrun
  subst hi
  subst hcnt
  obtain ⟨x, xs, hxs⟩ := List.exists_cons_of_ne_nil hne
  unfold update_current_animation
  rw [hp, ha, hfr, hxs]
  simp only [Option.some_bind, hc, Option.getD_some, List.isEmpty_cons,
    Bool.not_true, Bool.false_or, Bool.false_eq_true, if_false]
  rw [← hxs]
  refine ⟨fun hlt => ?_, fun hge hcl => ?_, fun hge hcl => ?_⟩
  · rw [if_pos hlt]
    exact ⟨rfl, by simp [InRun, hp, ha, hfr]⟩
  · rw [if_neg (Nat.not_lt.mpr hge), hloops]
    rw [if_neg (by omega : ¬((N : Int) = -1))]
    rw [if_neg (by omega : ¬((s.anim.loop_count + 1 : Nat) : Int) ≥ (N : Int))]
    exact ⟨rfl, by simp [InRun, hp, ha, hfr]⟩
  · rw [if_neg (Nat.not_lt.mpr hge), hloops]
    rw [if_neg (by omega : ¬((N : Int) = -1))]
    rw [if_pos (by omega : ((s.anim.loop_count + 1 : Nat) : Int) ≥ (N : Int))]

/-- Frame phase of one loop: from cursor 0, `k ≤ F` ticks advance the
cursor to `k` with every end flag `false`. -/
theorem run_phase (lf : FrameOracle) (snd : SoundOracle) (rand : Nat)
    (t : AnimationType) {cfg : AnimationConfig} (fr : List String) (N : Nat)
    (hc : ANIMATIONS t = some cfg) (hloops : cfg.loops = (N : Int))
    (hne : fr ≠ []) :
    ∀ (k : Nat), k ≤ fr.length → ∀ (c : Nat) (s : PetState), InRun t fr 0 c s →
      (∀ j, j < k →
        (update_current_animation lf snd rand (runUpdates lf snd rand j s)).2
          = false) ∧
      InRun t fr k c (runUpdates lf snd rand k s) := by
  intro k
  induction k with
  | zero =>
    intro _ c s h
    exact ⟨fun j hj => absurd hj (Nat.not_lt_zero j), h⟩
  | succ k ih =>
    intro hk c s h
    have h1 := ih (Nat.le_of_succ_le hk) c s h
    have hstep := (update_finite_step lf snd rand t fr N hc hloops hne _ k c
      h1.2).1 (by omega)
    constructor
    · intro j hj
      rcases Nat.lt_succ_iff_lt_or_eq.mp hj with hj2 | hj2
      · exact h1.1 j hj2
      · rw [hj2]
        exact hstep.1
    · rw [runUpdates_succ_right]
      exact hstep.2

/-- Whole loops: from cursor 0 and counter `c`, running `q` further loops
(`c + q < N`) takes `q * (F + 1)` ticks, all with end flag `false`. -/
theorem run_loops (lf : FrameOracle) (snd : SoundOracle) (rand : Nat)
    (t : AnimationType) {cfg : AnimationConfig} (fr : List String) (N : Nat)
    (hc : ANIMATIONS t = some cfg) (hloops : cfg.loops = (N : Int))
    (hne : fr ≠ []) :
    ∀ (q c : Nat) (s : PetState), c + q < N → InRun t fr 0 c s →
      (∀ j, j < q * (fr.length + 1) →
        (update_current_animation lf snd rand (runUpdates lf snd rand j s)).2
          = false) ∧
      InRun t fr 0 (c + q) (runUpdates lf snd rand (q * (fr.length + 1)) s) := by
  intro q
  induction q with
  | zero =>
    intro c s _ h
    exact ⟨fun j hj => absurd hj (by simp), by simpa [runUpdates] using h⟩
  | succ q ih =>
    intro c s hq h
    have hphase := run_phase lf snd rand t fr N hc hloops hne fr.length
      le_rfl c s h
    have hstep := (update_finite_step lf snd rand t fr N hc hloops hne _
      fr.length c hphase.2).2.1 le_rfl (by omega)
    have h1 : InRun t fr 0 (c + 1)
        (runUpdates lf snd rand (fr.length + 1) s) := by
      rw [runUpdates_succ_right]
      exact hstep.2
    have ihq := ih (c + 1) (runUpdates lf snd rand (fr.length + 1) s)
      (by omega) h1
    have hsplit : (q + 1) * (fr.length + 1)
        = (fr.length + 1) + q * (fr.length + 1) := by ring
    constructor
    · intro j hj
      by_cases hjA : j < fr.length + 1
      · rcases Nat.lt_succ_iff_lt_or_eq.mp hjA with hj2 | hj2
        · exact hphase.1 j hj2
        · rw [hj2]
          exact hstep.1
      · have hj3 : j - (fr.length + 1) < q * (fr.length + 1) := by omega
        have h4 := ihq.1 (j - (fr.length + 1)) hj3
        rw [← runUpdates_add] at h4
        rwa [Nat.add_sub_cancel' (Nat.le_of_not_lt hjA)] at h4
    · rw [hsplit, runUpdates_add]
      have hce : c + (q + 1) = (c + 1) + q := by omega
      rw [hce]
      exact ihq.2

/-- For a run started at cursor 0 and counter 0 of an `N`-loop animation,
among the first `N * (F + 1)` ticks the end flag fires exactly on the
last one. -/
theorem finite_run_flags (lf : FrameOracle) (snd : SoundOracle) (rand : Nat)
    (t : AnimationType) {cfg : AnimationConfig} (fr : List String) (N : Nat)
    (hc : ANIMATIONS t = some cfg) (hloops : cfg.loops = (N : Int))
    (hN : 1 ≤ N) (hne : fr ≠ []) (s0 : PetState) (h0 : InRun t fr 0 0 s0) :
    ∀ i, i < N * (fr.length + 1) →
      ((update_current_animation lf snd rand
          (runUpdates lf snd rand i s0)).2 = true
        ↔ i + 1 = N * (fr.length + 1)) := by
  have hN1 : N = (N - 1) + 1 := by omega
  have hNF : N * (fr.length + 1)
      = (N - 1) * (fr.length + 1) + (fr.length + 1) := by
    calc N * (fr.length + 1) = ((N - 1) + 1) * (fr.length + 1) := by rw [← hN1]
      _ = (N - 1) * (fr.length + 1) + (fr.length + 1) := by rw [Nat.succ_mul]
  have hloop := run_loops lf snd rand t fr N hc hloops hne (N - 1) 0 s0
    (by omega) h0
  have hzero : 0 + (N - 1) = N - 1 := by omega
  rw [hzero] at hloop
  have hphase := run_phase lf snd rand t fr N hc hloops hne fr.length le_rfl
    (N - 1) (runUpdates lf snd rand ((N - 1) * (fr.length + 1)) s0) hloop.2
  have hfin := (update_finite_step lf snd rand t fr N hc hloops hne _
    fr.length (N - 1) hphase.2).2.2 le_rfl (by omega)
  intro i hi
  constructor
  · intro hflag
    by_contra hne2
    by_cases h1 : i < (N - 1) * (fr.length + 1)
    · rw [hloop.1 i h1] at hflag
      simp at hflag
    · have h2 : i - (N - 1) * (fr.length + 1) < fr.length := by omega
      have h3 := hphase.1 (i - (N - 1) * (fr.length + 1)) h2
      rw [← runUpdates_add] at h3
      rw [Nat.add_sub_cancel' (Nat.le_of_not_lt h1)] at h3
      rw [h3] at hflag
      simp at hflag
  · intro hi1
    have h4 : i = (N - 1) * (fr.length + 1) + fr.length := by omega
    rw [h4, runUpdates_add]
    exact hfin

/-- Claim C3 (amended): for an accepted start of an animation with finite
loop count `N ≥ 1` and `F ≥ 1` loaded frames, natural termination is
reached on exactly the `N * (F + 1)`-th invocation of the per-tick
advance: among the first `N * (F + 1)` invocations the end flag is `false`
on every tick except the last (the claimed count `N * F` covers only the
frame-advancing ticks and misses the `N` loop-boundary ticks). -/
theorem c3_natural_termination_tick_count (lf : FrameOracle)
    (snd : SoundOracle) (rand : Nat) (s : PetState) (t : AnimationType)
    {cfg : AnimationConfig} (N : Nat) (force : Bool)
    (hc : ANIMATIONS t = some cfg) (hloops : cfg.loops = (N : Int))
    (hN : 1 ≤ N)
    (hgate : force = true ∨ s.anim.can_interrupt cfg.priority = true)
    (hne : get_animation_frames lf (stop_current_animation s) t ≠ []) :
    (start_animation lf snd s t force).1 = true ∧
    ∀ i, i < N * ((get_animation_frames lf (stop_current_animation s) t).length + 1) →
      ((update_current_animation lf snd rand
          (runUpdates lf snd rand i (start_animation lf snd s t force).2)).2 = true
        ↔ i + 1
          = N * ((get_animation_frames lf (stop_current_animation s) t).length + 1)) := by
  have h := start_accept_spec lf snd s t force hc hgate hne
  have h0 : InRun t (get_animation_frames lf (stop_current_animation s) t) 0 0
      (start_animation lf snd s t force).2 :=
    ⟨h.2.2.2.1, h.2.1, h.2.2.2.2.2.2.1, h.2.2.2.2.1, h.2.2.2.2.2.1⟩
  exact ⟨h.1, finite_run_flags lf snd rand t _ N hc hloops hN hne _ h0⟩

/-- Counterexample to claim C3 as stated: the anger animation has
`loops = 3` and two loaded frames, so the claim predicts natural
termination after `3 * 2 = 6` tick advances; but after 6 invocations the
animation is still playing with no end reached — termination happens on
the 9th invocation. -/
theorem c3_counterexample :
    (start_animation lfTwo sndNo basePet AnimationType.ANGER false).1 = true ∧
    (∀ i, i < 6 →
      (update_current_animation lfTwo sndNo 1
        (runUpdates lfTwo sndNo 1 i
          (start_animation lfTwo sndNo basePet AnimationType.ANGER false).2)).2
        = false) ∧
    (runUpdates lfTwo sndNo 1 6
      (start_animation lfTwo sndNo basePet AnimationType.ANGER false).2).anim.is_playing
      = true ∧
    (update_current_animation lfTwo sndNo 1
      (runUpdates lfTwo sndNo 1 8
        (start_animation lfTwo sndNo basePet AnimationType.ANGER false).2)).2
      = true := by
  decide

/-- Witness for C3 (amended): for the accepted anger start (three loops,
two frames) the 9th tick is exactly where the end flag fires. -/
theorem c3_witness :
    (update_current_animation lfTwo sndNo 1
      (runUpdates lfTwo sndNo 1 8
        (start_animation lfTwo sndNo basePet AnimationType.ANGER false).2)).2 = true
      ↔ 8 + 1 = 3 * ((get_animation_frames lfTwo
          (stop_current_animation basePet) AnimationType.ANGER).length + 1) :=
  (c3_natural_termination_tick_count lfTwo sndNo 1 basePet AnimationType.ANGER
    3 false rfl rfl (by decide) (Or.inr (by decide)) (by decide)).2 8 (by decide)

/-- `_start_animation` never touches the click buffer, accepted or not. -/
theorem start_clicks_preserved (lf : FrameOracle) (snd : SoundOracle)
    (s : PetState) (t : AnimationType) (force : Bool) :
    (start_animation lf snd s t force).2.click_timestamps
      = s.click_timestamps := by
  cases hA : ANIMATIONS t with
  | none =>
    unfold start_animation
    rw [hA]
  | some cfg =>
    by_cases hg : (!force && !(s.anim.can_interrupt cfg.priority)) = true
    · unfold start_animation
      rw [hA]
      dsimp only
      rw [if_pos hg]
    · have hg2 : force = true ∨ s.anim.can_interrupt cfg.priority = true := by
        by_cases hf2 : force = true
        · exact Or.inl hf2
        · right
          by_cases hcan : s.anim.can_interrupt cfg.priority = true
          · exact hcan
          · exfalso
            apply hg
            simp only [Bool.not_eq_true] at hf2 hcan
            simp [hf2, hcan]
      by_cases hfr : get_animation_frames lf (stop_current_animation s) t = []
      · rw [start_empty_frames_spec lf snd s t force hA hg2 hfr]
        simpa using stop_clicks s
      · exact (start_accept_spec lf snd s t force hA hg2
          hfr).2.2.2.2.2.2.2.2.2

/-- A counted click that leaves the pruned buffer below 15 entries: the
timestamp is appended after pruning and the anger branch does not fire. -/
theorem check_anger_no_fire (lf : FrameOracle) (snd : SoundOracle)
    (s : PetState)
    (h : (s.click_timestamps.filter
        (fun x => decide (s.now - x ≤ 10))).length + 1 < 15) :
    check_anger_condition lf snd s
      = ({ s with click_timestamps :=
            s.click_timestamps.filter (fun x => decide (s.now - x ≤ 10))
              ++ [s.now] },
         false) := by
  unfold check_anger_condition
  rw [if_neg (by simp only [List.length_append, List.length_cons,
    List.length_nil]; omega)]

/-- A counted click that brings the pruned buffer to 15 or more entries:
the buffer is cleared and the anger animation is force-started. -/
theorem check_anger_fire (lf : FrameOracle) (snd : SoundOracle)
    (s : PetState)
    (h : 15 ≤ (s.click_timestamps.filter
        (fun x => decide (s.now - x ≤ 10))).length + 1) :
    check_anger_condition lf snd s
      = ((start_animation lf snd { s with click_timestamps := [] }
            AnimationType.ANGER true).2, true) := by
  unfold check_anger_condition
  rw [if_pos (by simp only [List.length_append, List.length_cons,
    List.length_nil]; omega)]

/-- Processing clicks that all fall in one 10-second window, with at most
14 timestamps in total, never fires the anger branch: every timestamp
survives pruning and the buffer ends as the concatenation. -/
theorem runClicks_no_fire (lf : FrameOracle) (snd : SoundOracle) (a : Int) :
    ∀ (todo : List Int) (s : PetState),
      (∀ x ∈ s.click_timestamps, a ≤ x ∧ x ≤ a + 10) →
      (∀ x ∈ todo, a ≤ x ∧ x ≤ a + 10) →
      s.click_timestamps.length + todo.length ≤ 14 →
      (runClicks lf snd todo s).2 = 0 ∧
      (runClicks lf snd todo s).1.click_timestamps
        = s.click_timestamps ++ todo := by
  intro todo
  induction todo with
  | nil =>
    intro s _ _ _
    exact ⟨rfl, by simp [runClicks]⟩
  | cons t0 rest ih =>
    intro s hbuf htodo hlen
    simp only [List.length_cons] at hlen
    have hkeep : (s.click_timestamps.filter (fun x => decide (t0 - x ≤ 10)))
        = s.click_timestamps := by
      apply List.filter_eq_self.mpr
      intro x hx
      have h1 := hbuf x hx
      have h2 := htodo t0 (by simp)
      simp only [decide_eq_true_eq]
      omega
    have hnf := check_anger_no_fire lf snd { s with now := t0 }
      (by simp only [hkeep]; omega)
    simp only [hkeep] at hnf
    have hbuf2 : ∀ x ∈ s.click_timestamps ++ [t0], a ≤ x ∧ x ≤ a + 10 := by
      intro x hx
      rcases List.mem_append.mp hx with hx | hx
      · exact hbuf x hx
      · simp only [List.mem_singleton] at hx
        rw [hx]
        exact htodo t0 (by simp)
    have htodo2 : ∀ x ∈ rest, a ≤ x ∧ x ≤ a + 10 :=
      fun x hx => htodo x (by simp [hx])
    have hrec := ih
      { s with now := t0, click_timestamps := s.click_timestamps ++ [t0] }
      (by simpa using hbuf2) htodo2
      (by simp only [List.length_append, List.length_cons, List.length_nil]
          omega)
    simp only [runClicks]
    rw [hnf]
    constructor
    · simpa using hrec.1
    · have h3 := hrec.2
      simp only at h3 ⊢
      rw [h3]
      simp

/-- Processing clicks that all fall in one 9-second window and bring the
total to exactly 15 fires the anger branch exactly once, on the last
click, and leaves the buffer empty. -/
theorem runClicks_fire (lf : FrameOracle) (snd : SoundOracle) (a : Int) :
    ∀ (todo : List Int) (s : PetState), todo ≠ [] →
      (∀ x ∈ s.click_timestamps, a ≤ x ∧ x ≤ a + 9) →
      (∀ x ∈ todo, a ≤ x ∧ x ≤ a + 9) →
      s.click_timestamps.length + todo.length = 15 →
      (runClicks lf snd todo s).2 = 1 ∧
      (runClicks lf snd todo s).1.click_timestamps = [] := by
  intro todo
  induction todo with
  | nil =>
    intro s h
    exact absurd rfl h
  | cons t0 rest ih =>
    intro s _ hbuf htodo hlen
    simp only [List.length_cons] at hlen
    have hkeep : (s.click_timestamps.filter (fun x => decide (t0 - x ≤ 10)))
        = s.click_timestamps := by
      apply List.filter_eq_self.mpr
      intro x hx
      have h1 := hbuf x hx
      have h2 := htodo t0 (by simp)
      simp only [decide_eq_true_eq]
      omega
    cases rest with
    | nil =>
      have hf := check_anger_fire lf snd { s with now := t0 }
        (by simp only [hkeep]; simp only [List.length_nil] at hlen; omega)
      simp only [runClicks]
      rw [hf]
      refine ⟨rfl, ?_⟩
      simp only [start_clicks_preserved]
    | cons t1 rest2 =>
      have hnf := check_anger_no_fire lf snd { s with now := t0 }
        (by simp only [hkeep]; simp only [List.length_cons] at hlen; omega)
      simp only [hkeep] at hnf
      have hbuf2 : ∀ x ∈ s.click_timestamps ++ [t0], a ≤ x ∧ x ≤ a + 9 := by
        intro x hx
        rcases List.mem_append.mp hx with hx | hx
        · exact hbuf x hx
        · simp only [List.mem_singleton] at hx
          rw [hx]
          exact htodo t0 (by simp)
      have htodo2 : ∀ x ∈ t1 :: rest2, a ≤ x ∧ x ≤ a + 9 :=
        fun x hx => htodo x (by simp [List.mem_cons] at hx ⊢; tauto)
      have hrec := ih
        { s with now := t0, click_timestamps := s.click_timestamps ++ [t0] }
        (by simp) (by simpa using hbuf2) htodo2
        (by simp only [List.length_append, List.length_cons, List.length_nil]
            simp only [List.length_cons] at hlen
            omega)
      simp only [runClicks] at hrec ⊢
      rw [hnf]
      exact ⟨by simpa using hrec.1, by simpa using hrec.2⟩

/-- Claim C6: each counted click first prunes timestamps older than 10
seconds and then appends the click time; if the buffer then holds 15 or
more entries it is cleared and the anger animation is force-started
exactly once.  Consequently 15 clicks within a 9-second window fire anger
exactly once and empty the buffer, 14 clicks within a 10-second window
fire nothing, and a click arriving after the clear starts a fresh count
from one. -/
theorem c6_click_burst_detector (lf : FrameOracle) (snd : SoundOracle) :
    (∀ s : PetState,
      ((s.click_timestamps.filter
          (fun x => decide (s.now - x ≤ 10))).length + 1 < 15 →
        check_anger_condition lf snd s
          = ({ s with click_timestamps :=
                s.click_timestamps.filter (fun x => decide (s.now - x ≤ 10))
                  ++ [s.now] },
             false)) ∧
      (15 ≤ (s.click_timestamps.filter
          (fun x => decide (s.now - x ≤ 10))).length + 1 →
        (check_anger_condition lf snd s).2 = true ∧
        (check_anger_condition lf snd s).1.click_timestamps = [] ∧
        (get_animation_frames lf
            (stop_current_animation { s with click_timestamps := [] })
            AnimationType.ANGER ≠ [] →
          (check_anger_condition lf snd s).1.anim.current_animation
            = some AnimationType.ANGER ∧
          (check_anger_condition lf snd s).1.anim.is_playing = true))) ∧
    (∀ (a : Int) (ts : List Int) (s : PetState), ts.length = 15 →
      (∀ x ∈ ts, a ≤ x ∧ x ≤ a + 9) → s.click_timestamps = [] →
      (runClicks lf snd ts s).2 = 1 ∧
      (runClicks lf snd ts s).1.click_timestamps = []) ∧
    (∀ (a : Int) (ts : List Int) (s : PetState), ts.length = 14 →
      (∀ x ∈ ts, a ≤ x ∧ x ≤ a + 10) → s.click_timestamps = [] →
      (runClicks lf snd ts s).2 = 0) ∧
    (∀ (s : PetState) (t0 : Int), s.click_timestamps = [] →
      (check_anger_condition lf snd { s with now := t0 }).1.click_timestamps
        = [t0] ∧
      (check_anger_condition lf snd { s with now := t0 }).2 = false) := by
  refine ⟨fun s => ⟨fun h => check_anger_no_fire lf snd s h, fun h => ?_⟩,
    fun a ts s h15 hwin hempty => ?_, fun a ts s h14 hwin hempty => ?_,
    fun s t0 hempty => ?_⟩
  · rw [check_anger_fire lf snd s h]
    refine ⟨rfl, by simp only [start_clicks_preserved], fun hfr => ?_⟩
    have hacc := start_accept_spec lf snd { s with click_timestamps := [] }
      AnimationType.ANGER true rfl (Or.inl rfl) hfr
    exact ⟨hacc.2.1, hacc.2.2.2.1⟩
  · have h := runClicks_fire lf snd a ts s (by intro hts; rw [hts] at h15; simp at h15)
      (by rw [hempty]; intro x hx; simp at hx) hwin (by rw [hempty]; simp [h15])
    exact h
  · exact (runClicks_no_fire lf snd a ts s
      (by rw [hempty]; intro x hx; simp at hx) hwin
      (by rw [hempty]; simp [h14])).1
  · have h := check_anger_no_fire lf snd { s with now := t0 }
      (by simp only [hempty]; simp)
    rw [h]
    simp [hempty]

/-- Witness for C6: fifteen clicks at time 0 from an empty buffer fire
anger exactly once and clear the buffer. -/
theorem c6_witness :
    (runClicks lfOne sndNo (List.replicate 15 0) basePet).2 = 1 ∧
    (runClicks lfOne sndNo (List.replicate 15 0) basePet).1.click_timestamps
      = [] :=
  (c6_click_burst_detector lfOne sndNo).2.1 0 (List.replicate 15 0) basePet
    (by decide) (by decide) rfl

/-- `_load_and_scale_pixmap` never touches the frame cache. -/
theorem las_frame_cache (env : FsEnv) (st : RMState) (path : String)
    (size : Size) :
    (load_and_scale_pixmap env st path size).1.frame_cache = st.frame_cache := by
  unfold load_and_scale_pixmap
  split
  · split <;> rfl
  · rfl

/-- `_load_and_scale_pixmap` never touches the image cache. -/
theorem las_image_cache (env : FsEnv) (st : RMState) (path : String)
    (size : Size) :
    (load_and_scale_pixmap env st path size).1.image_cache = st.image_cache := by
  unfold load_and_scale_pixmap
  split
  · split <;> rfl
  · rfl

/-- The frame loop never touches the frame cache. -/
theorem loop_frame_cache (env : FsEnv) (folder : String) (size : Size) :
    ∀ (l : List Nat) (st : RMState),
      (load_frames_loop env st folder size l).1.frame_cache = st.frame_cache := by
  intro l
  induction l with
  | nil => intro st; rfl
  | cons i rest ih =>
    intro st
    unfold load_frames_loop
    split
    · dsimp only
      split <;> rw [ih, las_frame_cache]
    · exact ih st

/-- The frame loop produces at most one frame per index. -/
theorem loop_length (env : FsEnv) (folder : String) (size : Size) :
    ∀ (l : List Nat) (st : RMState),
      (load_frames_loop env st folder size l).2.length ≤ l.length := by
  intro l
  induction l with
  | nil => intro st; simp [load_frames_loop]
  | cons i rest ih =>
    intro st
    unfold load_frames_loop
    split
    · dsimp only
      split
      · simp only [List.length_cons]
        exact Nat.succ_le_succ (ih _)
      · simp only [List.length_cons]
        exact Nat.le_succ_of_le (ih _)
    · simp only [List.length_cons]
      exact Nat.le_succ_of_le (ih st)

/-- Cache-hit behaviour of `load_frames`. -/
theorem load_frames_hit (env : FsEnv) (st : RMState) (folder : String)
    (n : Nat) (size : Size) (fs : List Pix)
    (hk : st.frame_cache (get_cache_key folder none (some size)) = some fs) :
    load_frames env st folder n size = (st, fs) := by
  unfold load_frames
  dsimp only
  rw [hk]

/-- Missing-directory behaviour of `load_frames`: nothing is cached and an
empty list is returned. -/
theorem load_frames_nodir (env : FsEnv) (st : RMState) (folder : String)
    (n : Nat) (size : Size)
    (hk : st.frame_cache (get_cache_key folder none (some size)) = none)
    (hd : env.dirOk folder = false) :
    load_frames env st folder n size = (st, []) := by
  unfold load_frames
  dsimp only
  rw [hk]
  simp [hd]

/-- Cache-miss behaviour of `load_frames` with an existing directory: the
loop result is cached under the key and returned. -/
theorem load_frames_miss (env : FsEnv) (st : RMState) (folder : String)
    (n : Nat) (size : Size)
    (hk : st.frame_cache (get_cache_key folder none (some size)) = none)
    (hd : env.dirOk folder = true) :
    load_frames env st folder n size
      = ({ (load_frames_loop env st folder size (List.range' 1 n)).1 with
             frame_cache := fun k =>
               if k = get_cache_key folder none (some size)
               then some (load_frames_loop env st folder size (List.range' 1 n)).2
               else (load_frames_loop env st folder size
                      (List.range' 1 n)).1.frame_cache k },
         (load_frames_loop env st folder size (List.range' 1 n)).2) := by
  unfold load_frames
  dsimp only
  rw [hk]
  simp [hd]

/-- A cached frame entry is never overwritten by a later `load_frames`. -/
theorem load_frames_grow (env : FsEnv) (st : RMState) (folder : String)
    (n : Nat) (size : Size) (k : String) (v : List Pix)
    (hk : st.frame_cache k = some v) :
    (load_frames env st folder n size).1.frame_cache k = some v := by
  cases hc : st.frame_cache (get_cache_key folder none (some size)) with
  | some fs => rw [load_frames_hit env st folder n size fs hc]; exact hk
  | none =>
    by_cases hd : env.dirOk folder = true
    · rw [load_frames_miss env st folder n size hc hd]
      dsimp only
      by_cases hkey : k = get_cache_key folder none (some size)
      · rw [hkey] at hk
        rw [hk] at hc
        cases hc
      · rw [if_neg hkey, loop_frame_cache]
        exact hk
    · rw [load_frames_nodir env st folder n size hc
        (Bool.not_eq_true _ ▸ hd : env.dirOk folder = false)]
      exact hk

/-- Decode accounting invariant: every path was fully decoded at most once
and every decoded path has its base pixmap cached. -/
def DecodeWF (st : RMState) : Prop :=
  (∀ p, st.decode_log.count p ≤ 1) ∧
  (∀ p, p ∈ st.decode_log → (st.base_pixmap_cache p).isSome = true)

/-- `_load_and_scale_pixmap` preserves the decode accounting invariant: it
decodes only paths whose base pixmap is not yet cached and caches the base
on success. -/
theorem las_decodeWF (env : FsEnv) (st : RMState) (path : String)
    (size : Size) (h : DecodeWF st) :
    DecodeWF (load_and_scale_pixmap env st path size).1 := by
  unfold load_and_scale_pixmap
  split
  · rename_i hbase
    by_cases hd : env.decodeOk path = true
    · rw [if_pos hd]
      constructor
      · intro p
        dsimp only
        rw [List.count_append]
        by_cases hp : p = path
        · have h0 : st.decode_log.count p = 0 := by
            by_contra hcp
            have hmem : p ∈ st.decode_log := by
              have := Nat.pos_of_ne_zero hcp
              exact List.count_pos_iff.mp this
            have h2 := h.2 p hmem
            rw [hp, hbase] at h2
            simp at h2
          rw [h0]
          have : List.count p [path] ≤ 1 := by
            simp [List.count_cons, hp]
          omega
        · have h1 := h.1 p
          have : List.count p [path] = 0 := by
            simp [List.count_cons, hp]
          omega
      · intro p hp
        dsimp only at hp ⊢
        by_cases hpp : p = path
        · simp [hpp]
        · rcases List.mem_append.mp hp with hp2 | hp2
          · have := h.2 p hp2
            simp [hpp, this]
          · simp only [List.mem_singleton] at hp2
            exact absurd hp2 hpp
    · rw [if_neg hd]
      exact h
  · exact h

/-- The frame loop preserves the decode accounting invariant. -/
theorem loop_decodeWF (env : FsEnv) (folder : String) (size : Size) :
    ∀ (l : List Nat) (st : RMState), DecodeWF st →
      DecodeWF (load_frames_loop env st folder size l).1 := by
  intro l
  induction l with
  | nil => intro st h; exact h
  | cons i rest ih =>
    intro st h
    unfold load_frames_loop
    split
    · dsimp only
      split <;> exact ih _ (las_decodeWF env st _ size h)
    · exact ih st h

/-- `load_frames` preserves the decode accounting invariant. -/
theorem load_frames_decodeWF (env : FsEnv) (st : RMState) (folder : String)
    (n : Nat) (size : Size) (h : DecodeWF st) :
    DecodeWF (load_frames env st folder n size).1 := by
  cases hc : st.frame_cache (get_cache_key folder none (some size)) with
  | some fs => rw [load_frames_hit env st folder n size fs hc]; exact h
  | none =>
    by_cases hd : env.dirOk folder = true
    · rw [load_frames_miss env st folder n size hc hd]
      have h1 := loop_decodeWF env folder size (List.range' 1 n) st h
      exact ⟨h1.1, h1.2⟩
    · rw [load_frames_nodir env st folder n size hc
        (Bool.not_eq_true _ ▸ hd : env.dirOk folder = false)]
      exact h

/-- `load_single_image` preserves the decode accounting invariant. -/
theorem load_single_image_decodeWF (env : FsEnv) (st : RMState)
    (folder filename : String) (size : Size) (h : DecodeWF st) :
    DecodeWF (load_single_image env st folder filename size).1 := by
  simp only [load_single_image]
  split
  · exact h
  · split
    · split
      · rename_i p hp
        have h1 := las_decodeWF env st (folder ++ "/" ++ filename) size h
        exact ⟨h1.1, h1.2⟩
      · exact las_decodeWF env st (folder ++ "/" ++ filename) size h
    · exact h

/-- Any sequence of `ResourceManager` calls preserves the decode
accounting invariant. -/
theorem runOps_decodeWF (env : FsEnv) :
    ∀ (ops : List RMOp) (st : RMState), DecodeWF st →
      DecodeWF (runOps env ops st) := by
  intro ops
  induction ops with
  | nil => intro st h; exact h
  | cons op rest ih =>
    intro st h
    cases op with
    | frames f nn sz => exact ih _ (load_frames_decodeWF env st f nn sz h)
    | image f name sz => exact ih _ (load_single_image_decodeWF env st f name sz h)

/-- Claim C8: (a) a second `load_frames` call with the same folder and
size returns exactly the first call's cached result with the manager
state (decode log included) unchanged; (b) across any sequence of
`load_frames` / `load_single_image` calls from a fresh manager, each
source path is fully decoded at most once. -/
theorem c8_cache_idempotent_single_decode :
    (∀ (env : FsEnv) (st : RMState) (folder : String) (n : Nat) (size : Size),
      load_frames env (load_frames env st folder n size).1 folder n size
        = load_frames env st folder n size) ∧
    (∀ (env : FsEnv) (ops : List RMOp) (p : String),
      (runOps env ops initRM).decode_log.count p ≤ 1) := by
  constructor
  · intro env st folder n size
    cases hc : st.frame_cache (get_cache_key folder none (some size)) with
    | some fs =>
      rw [load_frames_hit env st folder n size fs hc]
      exact load_frames_hit env st folder n size fs hc
    | none =>
      by_cases hd : env.dirOk folder = true
      · rw [load_frames_miss env st folder n size hc hd]
        exact load_frames_hit env _ folder n size _ (by simp)
      · have hd2 : env.dirOk folder = false := Bool.not_eq_true _ ▸ hd
        rw [load_frames_nodir env st folder n size hc hd2]
        exact load_frames_nodir env st folder n size hc hd2
  · intro env ops p
    have h := runOps_decodeWF env ops initRM
      ⟨fun q => by simp [initRM], fun q hq => by simp [initRM] at hq⟩
    exact h.1 p

/-- Invariant: every cached frame sequence has at most one element (true
after the first-frame-only preload pass from a fresh manager). -/
def SmallCache (st : RMState) : Prop :=
  ∀ k v, st.frame_cache k = some v → v.length ≤ 1

/-- A `load_frames` call requesting at most one frame preserves
`SmallCache`. -/
theorem load_frames_small (env : FsEnv) (st : RMState) (folder : String)
    (n : Nat) (size : Size) (h : SmallCache st) (hn : n ≤ 1) :
    SmallCache (load_frames env st folder n size).1 := by
  cases hc : st.frame_cache (get_cache_key folder none (some size)) with
  | some fs => rw [load_frames_hit env st folder n size fs hc]; exact h
  | none =>
    by_cases hd : env.dirOk folder = true
    · rw [load_frames_miss env st folder n size hc hd]
      intro k v hkv
      dsimp only at hkv
      by_cases hkey : k = get_cache_key folder none (some size)
      · rw [if_pos hkey] at hkv
        injection hkv with hkv
        have hlen := loop_length env folder size (List.range' 1 n) st
        rw [hkv] at hlen
        simp only [List.length_range'] at hlen
        omega
      · rw [if_neg hkey, loop_frame_cache] at hkv
        exact h k v hkv
    · rw [load_frames_nodir env st folder n size hc
        (Bool.not_eq_true _ ▸ hd : env.dirOk folder = false)]
      exact h

/-- One preload iteration preserves `SmallCache`. -/
theorem preload_step_small (env : FsEnv) (dsize : Size) (st : RMState)
    (t : AnimationType) (h : SmallCache st) :
    SmallCache (preload_step env dsize st t) := by
  unfold preload_step
  cases hA : ANIMATIONS t with
  | none => exact h
  | some cfg =>
    exact load_frames_small env st cfg.folder (min 1 cfg.frames) _ h
      (Nat.min_le_left 1 cfg.frames)

/-- Folding preload steps preserves `SmallCache`. -/
theorem foldl_small (env : FsEnv) (dsize : Size) :
    ∀ (l : List AnimationType) (st : RMState), SmallCache st →
      SmallCache (l.foldl (preload_step env dsize) st) := by
  intro l
  induction l with
  | nil => intro st h; exact h
  | cons hd0 rest ih =>
    intro st h
    simpa only [List.foldl_cons] using
      ih (preload_step env dsize st hd0) (preload_step_small env dsize st hd0 h)

/-- One preload iteration never evicts a cached frame entry. -/
theorem preload_step_grow (env : FsEnv) (dsize : Size) (st : RMState)
    (t : AnimationType) (k : String) (v : List Pix)
    (hk : st.frame_cache k = some v) :
    (preload_step env dsize st t).frame_cache k = some v := by
  unfold preload_step
  cases hA : ANIMATIONS t with
  | none => exact hk
  | some cfg => exact load_frames_grow env st cfg.folder _ _ k v hk

/-- Folding preload steps never evicts a cached frame entry. -/
theorem foldl_grow (env : FsEnv) (dsize : Size) :
    ∀ (l : List AnimationType) (st : RMState) (k : String) (v : List Pix),
      st.frame_cache k = some v →
      (l.foldl (preload_step env dsize) st).frame_cache k = some v := by
  intro l
  induction l with
  | nil => intro st k v hk; exact hk
  | cons hd0 rest ih =>
    intro st k v hk
    simpa only [List.foldl_cons] using
      ih (preload_step env dsize st hd0) k v
        (preload_step_grow env dsize st hd0 k v hk)

/-- After an animation's own preload iteration, its `(folder, size)` key
is cached unless the folder does not exist. -/
theorem preload_step_key (env : FsEnv) (dsize : Size) (st : RMState)
    (t : AnimationType) {cfg : AnimationConfig}
    (hc : ANIMATIONS t = some cfg) :
    (∃ v, (preload_step env dsize st t).frame_cache
        (get_cache_key cfg.folder none
          (some (scaleSize dsize cfg.size_scale))) = some v) ∨
    env.dirOk cfg.folder = false := by
  unfold preload_step
  rw [hc]
  dsimp only
  cases hk : st.frame_cache (get_cache_key cfg.folder none
      (some (scaleSize dsize cfg.size_scale))) with
  | some fs =>
    exact Or.inl ⟨fs, load_frames_grow env st cfg.folder _ _ _ fs hk⟩
  | none =>
    by_cases hd : env.dirOk cfg.folder = true
    · rw [load_frames_miss env st cfg.folder _ _ hk hd]
      exact Or.inl ⟨_, by dsimp only; rw [if_pos rfl]⟩
    · exact Or.inr (Bool.not_eq_true _ ▸ hd)

/-- After the whole preload fold, every preloaded animation's key is
cached unless its folder does not exist. -/
theorem foldl_key (env : FsEnv) (dsize : Size) :
    ∀ (l : List AnimationType) (st : RMState) (t : AnimationType)
      {cfg : AnimationConfig}, ANIMATIONS t = some cfg → t ∈ l →
      (∃ v, (l.foldl (preload_step env dsize) st).frame_cache
          (get_cache_key cfg.folder none
            (some (scaleSize dsize cfg.size_scale))) = some v) ∨
      env.dirOk cfg.folder = false := by
  intro l
  induction l with
  | nil => intro st t cfg hc ht; simp at ht
  | cons hd0 rest ih =>
    intro st t cfg hc ht
    rcases List.mem_cons.mp ht with rfl | ht2
    · rcases preload_step_key env dsize st t hc with ⟨v, hv⟩ | hnd
      · exact Or.inl ⟨v, by
          simp only [List.foldl_cons]
          exact foldl_grow env dsize rest _ _ v hv⟩
      · exact Or.inr hnd
    · simpa only [List.foldl_cons] using
        ih (preload_step env dsize st hd0) t hc ht2

/-- Claim C9: the frame-cache key is built from folder and size only —
never from the requested frame count — so a second `load_frames` call with
any other `total_frames` returns the first call's sequence unchanged; and
after `preload_resources` (which loads at most one frame per priority
animation) a later full-sequence request at the same folder and size
returns the cached sequence of length at most one. -/
theorem c9_cache_key_ignores_frame_count :
    (∀ (env : FsEnv) (st : RMState) (folder : String) (n1 n2 : Nat) (size : Size),
      (load_frames env (load_frames env st folder n1 size).1 folder n2 size).2
        = (load_frames env st folder n1 size).2) ∧
    (∀ (env : FsEnv) (dsize : Size) (t : AnimationType) (cfg : AnimationConfig),
      t ∈ priority_animations → ANIMATIONS t = some cfg →
      ((load_frames env (preload_resources env dsize initRM) cfg.folder
          cfg.frames (scaleSize dsize cfg.size_scale)).2).length ≤ 1) := by
  constructor
  · intro env st folder n1 n2 size
    cases hc : st.frame_cache (get_cache_key folder none (some size)) with
    | some fs =>
      rw [load_frames_hit env st folder n1 size fs hc,
          load_frames_hit env st folder n2 size fs hc]
    | none =>
      by_cases hd : env.dirOk folder = true
      · rw [load_frames_miss env st folder n1 size hc hd]
        rw [load_frames_hit env _ folder n2 size _ (by dsimp only; rw [if_pos rfl])]
      · have hd2 : env.dirOk folder = false := Bool.not_eq_true _ ▸ hd
        rw [load_frames_nodir env st folder n1 size hc hd2,
            load_frames_nodir env st folder n2 size hc hd2]
  · intro env dsize t cfg ht hc
    have hsmall : SmallCache (preload_resources env dsize initRM) :=
      foldl_small env dsize priority_animations initRM
        (fun k v hkv => by simp [initRM] at hkv)
    cases hv : (preload_resources env dsize initRM).frame_cache
        (get_cache_key cfg.folder none
          (some (scaleSize dsize cfg.size_scale))) with
    | some v =>
      rw [load_frames_hit env _ cfg.folder cfg.frames _ v hv]
      exact hsmall _ v hv
    | none =>
      have hnd : env.dirOk cfg.folder = false := by
        rcases foldl_key env dsize priority_animations initRM t hc ht with
          ⟨v, hv2⟩ | hnd
        · have hv3 : (preload_resources env dsize initRM).frame_cache
              (get_cache_key cfg.folder none
                (some (scaleSize dsize cfg.size_scale))) = some v := hv2
          rw [hv] at hv3
          cases hv3
        · exact hnd
      rw [load_frames_nodir env _ cfg.folder cfg.frames _ hv hnd]
      simp

/-- An environment in which every folder and file exists and decodes. -/
def envAll : FsEnv :=
  { dirOk := fun _ => true, fileOk := fun _ => true,
    decodeOk := fun _ => true, baseSize := fun _ => ⟨200, 200⟩ }

/-- Witness for C9: after the preload pass the full 2-frame anger request
at the preload size returns the cached at-most-one-frame sequence. -/
theorem c9_witness :
    ((load_frames envAll (preload_resources envAll ⟨200, 200⟩ initRM)
        "shengqi" 2 (scaleSize ⟨200, 200⟩ 1)).2).length ≤ 1 :=
  c9_cache_key_ignores_frame_count.2 envAll ⟨200, 200⟩ AnimationType.ANGER _
    (by decide) rfl

/-- Claim C10 (amended): `_enter_sleep` records the `SLEEP` animation at
`SYSTEM` priority but never writes `is_playing`.  Entered while nothing is
playing (the usual idle path) it leaves `is_playing = false` and
`can_interrupt` then accepts every priority; but entered while an
animation is still playing (reachable with the force-started
forever-looping anxiety run and a 600-second idle period) it leaves
`is_playing = true`, and the recorded SYSTEM priority then blocks every
non-forced request at priority `SYSTEM` or below. -/
theorem c10_sleep_priority_blocks_only_mid_play (s : PetState)
    (hns : is_sleeping s = false) (hfs : s.is_force_sleeping = false) :
    (enter_sleep s).anim.current_animation = some AnimationType.SLEEP ∧
    (enter_sleep s).anim.current_priority = AnimationPriority.SYSTEM ∧
    (enter_sleep s).anim.is_playing = s.anim.is_playing ∧
    (s.anim.is_playing = false →
      ∀ p, (enter_sleep s).anim.can_interrupt p = true) ∧
    (s.anim.is_playing = true →
      ∀ p, (enter_sleep s).anim.can_interrupt p
        = decide (AnimationPriority.SYSTEM < p)) := by
  have hstop := stop_is_playing s
  have hcond : (is_sleeping s || s.is_force_sleeping) = false := by
    simp [hns, hfs]
  unfold enter_sleep
  rw [hcond]
  simp only [Bool.false_eq_true, if_false]
  split <;> simp_all [AnimationState.can_interrupt]

/-- Counterexample to claim C10 as stated: entering sleep while the
force-started forever-looping anxiety animation is playing leaves
`is_playing = true`, so the recorded SYSTEM priority does block: the gate
rejects an `INTERACTION`-priority request and a non-forced drink-milk
start returns `false`. -/
theorem c10_counterexample :
    anxietyPet.anim.is_playing = true ∧
    is_sleeping anxietyPet = false ∧
    anxietyPet.is_force_sleeping = false ∧
    (enter_sleep anxietyPet).anim.current_animation
      = some AnimationType.SLEEP ∧
    (enter_sleep anxietyPet).anim.current_priority
      = AnimationPriority.SYSTEM ∧
    (enter_sleep anxietyPet).anim.is_playing = true ∧
    (enter_sleep anxietyPet).anim.can_interrupt
      AnimationPriority.INTERACTION = false ∧
    (start_animation lfOne sndNo (enter_sleep anxietyPet)
      AnimationType.DRINK_MILK false).1 = false := by
  decide

/-- Witness for C10 (amended): entering sleep over the playing anxiety
run records `SLEEP` at `SYSTEM` priority, keeps `is_playing`, and its
interrupt gate computes the pure priority comparison, which rejects
`INTERACTION`. -/
theorem c10_witness :
    (enter_sleep anxietyPet).anim.current_animation
      = some AnimationType.SLEEP ∧
    (enter_sleep anxietyPet).anim.current_priority
      = AnimationPriority.SYSTEM ∧
    (enter_sleep anxietyPet).anim.is_playing = anxietyPet.anim.is_playing ∧
    (enter_sleep anxietyPet).anim.can_interrupt AnimationPriority.INTERACTION
      = decide (AnimationPriority.SYSTEM < AnimationPriority.INTERACTION) := by
  have h := c10_sleep_priority_blocks_only_mid_play anxietyPet (by decide) rfl
  exact ⟨h.1, h.2.1, h.2.2.1, h.2.2.2.2 rfl AnimationPriority.INTERACTION⟩
